import Mathlib

/-
Verification development for the gateway connection-and-proxy subsystem
(`server.py`).  The Python source is shallowly embedded: each dispatcher
operation becomes a total Lean function over explicit state (the
`active_connections` dict) and oracles describing the behaviour of the
remote collaborators (registry HTTP fetch, SSE session).  The cooperative
async scheduler is embedded as a small-step machine over a global state
holding the connection table, the suspended `connect_to_service` calls,
the spawned `establish_sse_connection` tasks and their futures.
-/

namespace Gateway

/-- A service descriptor as decoded from the registry JSON body.
`transport_type`, `sse_event_url` and `sse_message_url` are read in the
source with `service.get(...)`, so they are optional keys. -/
structure Service where
  name : String
  url : String
  transport_type : Option String
  sse_event_url : Option String
  sse_message_url : Option String
  deriving Repr, DecidableEq

/-- Mirrors `service.get("transport_type", "http")` (server.py line 61). -/
def transportType (svc : Service) : String :=
  svc.transport_type.getD "http"

/-- Python falsiness of an optional string field: `not x` is true when the
key is absent (`None`) or the value is the empty string. -/
def pyFalsy : Option String → Bool
  | none => true
  | some s => s.isEmpty

/-- Outcome of the HTTP GET performed by `fetch_from_registry`
(server.py lines 20-35): either a decoded service object, or one of the
failure modes its `except Exception` clause swallows. -/
inductive RegistryResponse where
  | ok (svc : Service)
  | notFoundStatus
  | serverError (code : Nat)
  | unreachable (msg : String)
  | badJson (msg : String)
  deriving Repr, DecidableEq

/-- Embeds `fetch_from_registry` (server.py lines 20-35): any raised
exception — `raise_for_status` on a non-2xx status, a network error, or
a JSON decoding error — is caught and collapsed to `None`. -/
def fetch_from_registry : RegistryResponse → Option Service
  | .ok svc => some svc
  | .notFoundStatus => none
  | .serverError _ => none
  | .unreachable _ => none
  | .badJson _ => none

/-- Session handles are identified by the id of the handshake task that
created them. -/
abbrev SessionId := Nat

/-- The `active_connections` dict (server.py line 17): service id to
session, with at most one binding per key. -/
abbrev Table := List (String × SessionId)

/-- Membership test, mirroring `service_id in active_connections`. -/
def tableMem (t : Table) (k : String) : Bool :=
  t.any (fun p => p.1 == k)

/-- Lookup, mirroring `active_connections[service_id]`. -/
def tableGet (t : Table) (k : String) : Option SessionId :=
  (t.find? (fun p => p.1 == k)).map Prod.snd

/-- Deletion, mirroring `del active_connections[service_id]`. -/
def tableErase (t : Table) (k : String) : Table :=
  t.filter (fun p => p.1 != k)

/-- Keyed assignment, mirroring `active_connections[service_id] = session`:
a dict write replaces any previous binding of the key. -/
def tableInsert (t : Table) (k : String) (v : SessionId) : Table :=
  (k, v) :: tableErase t k

/-- Number of bindings a key has in the table. -/
def keyCount (t : Table) (k : String) : Nat :=
  (t.filter (fun p => p.1 == k)).length

/- Message strings returned by the dispatcher operations, transcribed
verbatim from server.py. -/

/-- Server.py line 53. -/
def alreadyConnectedMsg (sid : String) : String :=
  "Already connected to service " ++ sid ++ ". Use proxy_tool_call to access its tools."

/-- Server.py line 58. -/
def serviceNotFoundMsg (sid : String) : String :=
  "Service with ID " ++ sid ++ " not found."

/-- Server.py lines 64-68. -/
def httpConnectedMsg (svc : Service) : String :=
  "Connected to HTTP service: " ++ svc.name ++ "\nURL: " ++ svc.url ++
  "\nUse http_request() to interact with this service\x27s API."

/-- Server.py line 75. -/
def missingSseUrlsMsg : String :=
  "Service is missing required SSE URLs."

/-- Server.py lines 89-94. -/
def sseConnectedMsg (svc : Service) (sid : String) : String :=
  "Connected to SSE service: " ++ svc.name ++
  "\nConnection successfully established.\n\nIMPORTANT: To use this service\x27s tools, you must call:\nproxy_tool_call(" ++
  sid ++ ", \"tool_name\", \x7barguments\x7d)"

/-- Server.py lines 97-101, returned when the 15 second handshake wait
times out. -/
def connectionInProgressMsg (svc : Service) : String :=
  "Connection to " ++ svc.name ++
  " initiated but taking longer than expected.\nThe connection will continue to be established in the background.\nPlease try using proxy_tool_call in a few moments."

/-- Server.py line 103. -/
def unsupportedTransportMsg (t : String) : String :=
  "Unsupported transport type: " ++ t

/-- Server.py line 105: the `except Exception` boundary of
`connect_to_service`. -/
def connectErrorMsg (m : String) : String :=
  "Error connecting to service: " ++ m

/-- Server.py lines 175 and 221. -/
def notConnectedMsg (sid : String) : String :=
  "Not connected to service " ++ sid ++ ". Call connect_to_service(" ++ sid ++ ") first."

/-- Server.py line 205, returned when `asyncio.wait_for` around
`session.call_tool` hits its 30 second timeout. -/
def toolTimeoutMsg (tool : String) : String :=
  "Tool call to " ++ tool ++ " timed out after 30 seconds"

/-- Server.py line 207: the `except Exception` boundary of
`proxy_tool_call`. -/
def toolErrorMsg (m : String) : String :=
  "Error calling tool: " ++ m

/-- Server.py line 203. -/
def toolResultMsg (content : String) : String :=
  "Tool execution result:\n" ++ content

/-- Server.py line 251: the `except Exception` boundary of
`list_service_tools`. -/
def listToolsErrorMsg (m : String) : String :=
  "Error listing tools: " ++ m

/-- Observable outcome of the `await asyncio.wait_for(connection_future,
timeout=15.0)` suspension inside `connect_to_service` (lines 87-101):
the future resolved successfully, the future carried the handshake
exception (re-raised by the await, then caught at line 104), or the
15 second timeout fired first. -/
inductive HandshakeWaitOutcome where
  | completed
  | failed (msg : String)
  | timedOut
  deriving Repr, DecidableEq

/-- Single-call view of `connect_to_service` (server.py lines 39-105).
State and collaborator behaviour are explicit: `table` is
`active_connections` at entry, `resp` the registry response, `wait` the
outcome of awaiting the connection future.  The `.failed` branch
transcribes the exception set on the future propagating out of
`wait_for` and being caught by the `except Exception` at line 104. -/
def connect_to_service (table : Table) (resp : RegistryResponse)
    (wait : HandshakeWaitOutcome) (sid : String) : String :=
  if tableMem table sid then alreadyConnectedMsg sid
  else
    match fetch_from_registry resp with
    | none => serviceNotFoundMsg sid
    | some svc =>
      if transportType svc = "http" then httpConnectedMsg svc
      else if transportType svc = "sse" then
        if pyFalsy svc.sse_event_url || pyFalsy svc.sse_message_url then
          missingSseUrlsMsg
        else
          match wait with
          | .completed => sseConnectedMsg svc sid
          | .failed m => connectErrorMsg m
          | .timedOut => connectionInProgressMsg svc
      else unsupportedTransportMsg (transportType svc)

/-- One content item of a `call_tool` result (server.py lines 187-198).
The constructors record the attribute shape the dispatch inspects:
`hasattr(item, "type")`, the value of `item.type`, and for text items
whether a `text` attribute is present.  `reprStr` carries the `str(item)`
fallback rendering. -/
inductive ContentItem where
  | text (value : String)
  | textMissingAttr (reprStr : String)
  | image
  | resource (uri : Option String)
  | otherTyped (reprStr : String)
  | untyped (reprStr : String)
  deriving Repr, DecidableEq

/-- Rendering of one content item by the loop at server.py lines 187-198.
A `type == "text"` item lacking a `text` attribute falls through to the
`str(item)` branch; a resource item reads `getattr(item, "uri",
"Unknown")`. -/
def renderItem : ContentItem → String
  | .text v => v
  | .textMissingAttr r => r
  | .image => "[Image content]"
  | .resource uri => "[Resource: " ++ uri.getD "Unknown" ++ "]"
  | .otherTyped r => r
  | .untyped r => r

/-- Behaviour of `await asyncio.wait_for(session.call_tool(...), 30.0)`
for one invocation (server.py lines 180-207): a list-shaped result, a
non-list result (rendered with `str`), the 30 second timeout, or a raised
exception. -/
inductive CallToolBehavior where
  | returnsList (content : List ContentItem)
  | returnsNonList (reprStr : String)
  | timesOut
  | raises (msg : String)
  deriving Repr, DecidableEq

/-- Embeds `proxy_tool_call` (server.py lines 161-207).  Returns the
reply string and the table after the call; the source never mutates
`active_connections` in this function, so the table passes through
unchanged on every branch. -/
def proxy_tool_call (table : Table) (behavior : CallToolBehavior)
    (sid tool : String) : String × Table :=
  if !(tableMem table sid) then (notConnectedMsg sid, table)
  else
    match behavior with
    | .returnsList content =>
        (toolResultMsg (String.intercalate "\n" (content.map renderItem)), table)
    | .returnsNonList r => (toolResultMsg r, table)
    | .timesOut => (toolTimeoutMsg tool, table)
    | .raises m => (toolErrorMsg m, table)

/-- One remote tool as seen by `list_service_tools` (server.py lines
232-247): name, optional truthy description, and the rendered input
schema text (`json.dumps(..., indent=2)` for dicts, `str` otherwise)
when the attribute is present and truthy. -/
structure ToolInfo where
  name : String
  description : Option String
  inputSchemaText : Option String
  deriving Repr, DecidableEq

/-- Behaviour of `await session.list_tools()` (server.py line 226). -/
inductive ListToolsBehavior where
  | returns (tools : List ToolInfo)
  | raises (msg : String)
  deriving Repr, DecidableEq

/-- Formatting of one tool entry (server.py lines 232-247). -/
def formatTool (t : ToolInfo) : String :=
  "Name: " ++ t.name ++ "\n" ++
  (match t.description with
   | some d => "Description: " ++ d ++ "\n"
   | none => "") ++
  (match t.inputSchemaText with
   | some s => "Input Schema:\n" ++ s ++ "\n"
   | none => "") ++
  "\n"

/-- Embeds `list_service_tools` (server.py lines 211-251). -/
def list_service_tools (table : Table) (behavior : ListToolsBehavior)
    (sid : String) : String :=
  if !(tableMem table sid) then notConnectedMsg sid
  else
    match behavior with
    | .raises m => listToolsErrorMsg m
    | .returns tools =>
      if tools.isEmpty then "No tools available for service " ++ sid ++ "."
      else "Available tools for service " ++ sid ++ ":\n\n" ++
           String.join (tools.map formatTool)

/-- Names of the operations the gateway server exposes to callers: one
entry per function registered with the `@server.tool()` decorator in
server.py. -/
def exposedToolNames : List String :=
  ["connect_to_service", "proxy_tool_call", "list_service_tools",
   "discover_services", "get_service_details", "list_service_categories",
   "http_request"]

/-
Small-step embedding of the asyncio execution of `connect_to_service`
and `establish_sse_connection`.  Code between two awaits runs atomically
(single-threaded cooperative scheduling); each step function below is
one such atomic segment, applied when the scheduler resumes the task.
-/

/-- State of an `asyncio.Future` created at server.py line 78.  On a
15 second timeout, `asyncio.wait_for` cancels the awaited future (but
not the handshake task), hence `cancelled`. -/
inductive FutureState where
  | pending
  | resolvedOk
  | resolvedErr (msg : String)
  | cancelled
  deriving Repr, DecidableEq

/-- Where a suspended `connect_to_service` call currently is:
before its `await fetch_from_registry` resumes (line 56), awaiting the
connection future of the handshake task `hid` it spawned (line 87), or
returned with a reply string. -/
inductive ConnectPhase where
  | awaitingFetch
  | awaitingFuture (hid : Nat) (svc : Service)
  | done (result : String)
  deriving Repr, DecidableEq

/-- Where a spawned `establish_sse_connection` task currently is:
awaiting `sse_client`/`ClientSession` setup and `session.initialize()`
(lines 120-124), in the keep-alive sleep loop (lines 134-137), or
finished. -/
inductive HsPhase where
  | awaitingInit
  | keepAlive
  | finished
  deriving Repr, DecidableEq

/-- One in-flight `connect_to_service` call. -/
structure ConnTask where
  cid : Nat
  sid : String
  phase : ConnectPhase
  deriving Repr, DecidableEq

/-- One spawned `establish_sse_connection` task. -/
structure HsTask where
  hid : Nat
  sid : String
  phase : HsPhase
  deriving Repr, DecidableEq

/-- Global scheduler state: the `active_connections` table, the
suspended connect calls, the handshake tasks, each handshake task's
connection future (keyed by the task id), and a fresh-id counter. -/
structure GState where
  table : Table
  conns : List ConnTask
  handshakes : List HsTask
  futures : List (Nat × FutureState)
  nextId : Nat
  deriving Repr, DecidableEq

def initState : GState :=
  { table := [], conns := [], handshakes := [], futures := [], nextId := 0 }

def getConn (st : GState) (cid : Nat) : Option ConnTask :=
  st.conns.find? (fun c => c.cid == cid)

def getHs (st : GState) (hid : Nat) : Option HsTask :=
  st.handshakes.find? (fun h => h.hid == hid)

def getFuture (st : GState) (hid : Nat) : Option FutureState :=
  (st.futures.find? (fun p => p.1 == hid)).map Prod.snd

def setConnPhase (st : GState) (cid : Nat) (p : ConnectPhase) : GState :=
  { st with conns := st.conns.map (fun c => if c.cid == cid then { c with phase := p } else c) }

def setHsPhase (st : GState) (hid : Nat) (p : HsPhase) : GState :=
  { st with handshakes := st.handshakes.map (fun h => if h.hid == hid then { h with phase := p } else h) }

def setFuture (st : GState) (hid : Nat) (f : FutureState) : GState :=
  { st with futures := st.futures.map (fun q => if q.1 == hid then (q.1, f) else q) }

/-- Synchronous prefix of `connect_to_service` (server.py lines 50-56):
the duplicate check against `active_connections` runs before the first
await; if the id is present the call returns immediately, otherwise it
suspends awaiting the registry fetch.  Nothing is written to the table
or to any task list for the id at this point. -/
def connectStart (st : GState) (sid : String) : GState :=
  if tableMem st.table sid then
    { st with conns := ⟨st.nextId, sid, .done (alreadyConnectedMsg sid)⟩ :: st.conns,
              nextId := st.nextId + 1 }
  else
    { st with conns := ⟨st.nextId, sid, .awaitingFetch⟩ :: st.conns,
              nextId := st.nextId + 1 }

/-- Segment of `connect_to_service` from the return of
`fetch_from_registry` to the next suspension (server.py lines 57-87):
branch on the transport type; on a valid SSE descriptor create the
future, spawn the `establish_sse_connection` task, and suspend awaiting
the future. -/
def connectFetchStep (st : GState) (cid : Nat) (resp : RegistryResponse) : GState :=
  match getConn st cid with
  | none => st
  | some c =>
    match c.phase with
    | .awaitingFetch =>
      match fetch_from_registry resp with
      | none => setConnPhase st cid (.done (serviceNotFoundMsg c.sid))
      | some svc =>
        if transportType svc = "http" then
          setConnPhase st cid (.done (httpConnectedMsg svc))
        else if transportType svc = "sse" then
          if pyFalsy svc.sse_event_url || pyFalsy svc.sse_message_url then
            setConnPhase st cid (.done missingSseUrlsMsg)
          else
            let hid := st.nextId
            let st1 : GState :=
              { st with handshakes := ⟨hid, c.sid, .awaitingInit⟩ :: st.handshakes,
                        futures := (hid, FutureState.pending) :: st.futures,
                        nextId := st.nextId + 1 }
            setConnPhase st1 cid (.awaitingFuture hid svc)
        else setConnPhase st cid (.done (unsupportedTransportMsg (transportType svc)))
    | _ => st

/-- Resumption of `connect_to_service` when the awaited future has been
resolved (server.py lines 89-94 on success; on an exception the await
re-raises it and the handler at lines 104-105 renders it). -/
def connectFutureStep (st : GState) (cid : Nat) : GState :=
  match getConn st cid with
  | none => st
  | some c =>
    match c.phase with
    | .awaitingFuture hid svc =>
      match getFuture st hid with
      | some .resolvedOk => setConnPhase st cid (.done (sseConnectedMsg svc c.sid))
      | some (.resolvedErr m) => setConnPhase st cid (.done (connectErrorMsg m))
      | _ => st
    | _ => st

/-- Resumption of `connect_to_service` when the 15 second timeout fires
first (server.py lines 95-101): `asyncio.wait_for` cancels the future —
not the handshake task — and the caller gets the in-progress reply. -/
def connectTimeoutStep (st : GState) (cid : Nat) : GState :=
  match getConn st cid with
  | none => st
  | some c =>
    match c.phase with
    | .awaitingFuture hid svc =>
      match getFuture st hid with
      | some .pending =>
        setConnPhase (setFuture st hid .cancelled) cid
          (.done (connectionInProgressMsg svc))
      | _ => st
    | _ => st

/-- Segment of `establish_sse_connection` after `session.initialize()`
succeeds (server.py lines 126-137): store the session in
`active_connections`, resolve the future if it is still pending, and
enter the keep-alive loop. -/
def handshakeOkStep (st : GState) (hid : Nat) : GState :=
  match getHs st hid with
  | none => st
  | some h =>
    match h.phase with
    | .awaitingInit =>
      let st1 : GState := { st with table := tableInsert st.table h.sid hid }
      let st2 : GState :=
        match getFuture st1 hid with
        | some .pending => setFuture st1 hid .resolvedOk
        | _ => st1
      setHsPhase st2 hid .keepAlive
    | _ => st

/-- Segment of `establish_sse_connection` when connection setup or
`session.initialize()` raises (server.py lines 148-157): set the
exception on the future if it is still pending, and delete the table
entry if one exists. -/
def handshakeFailStep (st : GState) (hid : Nat) (msg : String) : GState :=
  match getHs st hid with
  | none => st
  | some h =>
    match h.phase with
    | .awaitingInit =>
      let st1 : GState :=
        match getFuture st hid with
        | some .pending => setFuture st hid (.resolvedErr msg)
        | _ => st
      let st2 : GState := { st1 with table := tableErase st1.table h.sid }
      setHsPhase st2 hid .finished
    | _ => st

/-- Exit of the keep-alive loop (server.py lines 134-147): on
cancellation or an error the `finally` block deletes the service id
from `active_connections` if present, and the task finishes. -/
def keepAliveExitStep (st : GState) (hid : Nat) : GState :=
  match getHs st hid with
  | none => st
  | some h =>
    match h.phase with
    | .keepAlive =>
      let st1 : GState := { st with table := tableErase st.table h.sid }
      setHsPhase st1 hid .finished
    | _ => st

/-- Reply string of a finished connect call, if it has returned. -/
def connResult (st : GState) (cid : Nat) : Option String :=
  match getConn st cid with
  | some c =>
    match c.phase with
    | .done r => some r
    | _ => none
  | none => none

/-- States reachable from the empty initial state when the registry
holds the catalog `reg`: a fetch for id `sid` can yield the catalog
entry `reg sid`, or fail (network error, bad status, bad body — all
collapsed to `None` by `fetch_from_registry`). -/
inductive Reachable (reg : String → Option Service) : GState → Prop where
  | init : Reachable reg initState
  | start (st : GState) (sid : String) :
      Reachable reg st → Reachable reg (connectStart st sid)
  | fetchOk (st : GState) (cid : Nat) (c : ConnTask) (svc : Service) :
      Reachable reg st → getConn st cid = some c → reg c.sid = some svc →
      Reachable reg (connectFetchStep st cid (.ok svc))
  | fetchFail (st : GState) (cid : Nat) (resp : RegistryResponse) :
      Reachable reg st → fetch_from_registry resp = none →
      Reachable reg (connectFetchStep st cid resp)
  | futureResumed (st : GState) (cid : Nat) :
      Reachable reg st → Reachable reg (connectFutureStep st cid)
  | timeoutFired (st : GState) (cid : Nat) :
      Reachable reg st → Reachable reg (connectTimeoutStep st cid)
  | hsOk (st : GState) (hid : Nat) :
      Reachable reg st → Reachable reg (handshakeOkStep st hid)
  | hsFail (st : GState) (hid : Nat) (msg : String) :
      Reachable reg st → Reachable reg (handshakeFailStep st hid msg)
  | kaExit (st : GState) (hid : Nat) :
      Reachable reg st → Reachable reg (keepAliveExitStep st hid)

/-
Concrete interleaving used for the concurrency claims: two
`connect_to_service("svc1")` calls, the second starting while the first
is suspended awaiting its registry fetch.
-/

/-- A well-formed SSE service descriptor. -/
def svcSse : Service :=
  { name := "Svc One", url := "http://s1",
    transport_type := some "sse",
    sse_event_url := some "http://s1/events",
    sse_message_url := some "http://s1/messages" }

/-- First connect call starts (task 0) and suspends at the fetch. -/
def raceState1 : GState := connectStart initState "svc1"

/-- Second connect call starts (task 1) while the first is suspended;
the table is still empty, so it too passes the duplicate check. -/
def raceState2 : GState := connectStart raceState1 "svc1"

/-- First call resumes with the descriptor and spawns handshake task 2. -/
def raceState3 : GState := connectFetchStep raceState2 0 (.ok svcSse)

/-- Second call resumes with the descriptor and spawns handshake task 3. -/
def raceState4 : GState := connectFetchStep raceState3 1 (.ok svcSse)

/-- First handshake completes and inserts its session. -/
def raceState5 : GState := handshakeOkStep raceState4 2

/-- Second handshake completes and overwrites the binding by key. -/
def raceState6 : GState := handshakeOkStep raceState5 3

/-- An SSE descriptor whose message endpoint URL is empty. -/
def svcSseNoMsgUrl : Service :=
  { name := "Svc Two", url := "http://s2",
    transport_type := some "sse",
    sse_event_url := some "http://s2/events",
    sse_message_url := some "" }

/-- A state with one connect call (task 0) suspended on its handshake
future and one handshake task (id 1) awaiting its initialize exchange. -/
def hsInitState : GState :=
  connectFetchStep (connectStart initState "svc2") 0 (.ok svcSse)

/-- The same state after the handshake succeeded: the table holds the
session and task 1 sits in its keep-alive loop. -/
def hsKeepState : GState := handshakeOkStep hsInitState 1

/-- The descriptive outcomes `connect_to_service` can report, one per
return statement of the function (server.py lines 53, 58, 64, 75, 89,
97, 103, 105).  Raised collaborator exceptions land in `caught`. -/
inductive ConnectOutcome (sid : String) : String → Prop where
  | already : ConnectOutcome sid (alreadyConnectedMsg sid)
  | notFound : ConnectOutcome sid (serviceNotFoundMsg sid)
  | http (svc : Service) : ConnectOutcome sid (httpConnectedMsg svc)
  | missingUrls : ConnectOutcome sid missingSseUrlsMsg
  | sseOk (svc : Service) : ConnectOutcome sid (sseConnectedMsg svc sid)
  | inProgress (svc : Service) : ConnectOutcome sid (connectionInProgressMsg svc)
  | unsupported (t : String) : ConnectOutcome sid (unsupportedTransportMsg t)
  | caught (m : String) : ConnectOutcome sid (connectErrorMsg m)

/-- The descriptive outcomes `proxy_tool_call` can report (server.py
lines 175, 203, 205, 207). -/
inductive ProxyOutcome (sid tool : String) : String → Prop where
  | notConnected : ProxyOutcome sid tool (notConnectedMsg sid)
  | result (content : String) : ProxyOutcome sid tool (toolResultMsg content)
  | timeout : ProxyOutcome sid tool (toolTimeoutMsg tool)
  | caught (m : String) : ProxyOutcome sid tool (toolErrorMsg m)

/-- The descriptive outcomes `list_service_tools` can report (server.py
lines 221, 228, 230, 251). -/
inductive ListOutcome (sid : String) : String → Prop where
  | notConnected : ListOutcome sid (notConnectedMsg sid)
  | noTools : ListOutcome sid ("No tools available for service " ++ sid ++ ".")
  | tools (body : String) :
      ListOutcome sid ("Available tools for service " ++ sid ++ ":\n\n" ++ body)
  | caught (m : String) : ListOutcome sid (listToolsErrorMsg m)

/-- No trace of a service id in the shared state: no table entry and no
handshake task working on it. -/
def noTrace (st : GState) (sid : String) : Prop :=
  tableMem st.table sid = false ∧ ∀ h ∈ st.handshakes, h.sid ≠ sid

/- Helper lemmas about the connection table. -/

theorem tableMem_insert_self (t : Table) (k : String) (v : SessionId) :
    tableMem (tableInsert t k v) k = true := by
  simp [tableMem, tableInsert]

theorem tableMem_erase_self (t : Table) (k : String) :
    tableMem (tableErase t k) k = false := by
  simp only [tableMem, tableErase]
  rw [List.any_eq_false]
  intro p hp
  rw [List.mem_filter] at hp
  have hne : p.1 ≠ k := by simpa using hp.2
  simpa using hne

theorem tableMem_erase_ne (t : Table) (k s : String) (h : k ≠ s) :
    tableMem (tableErase t k) s = tableMem t s := by
  simp only [tableMem, tableErase]
  apply Bool.eq_iff_iff.mpr
  simp only [List.any_eq_true, List.mem_filter]
  constructor
  · rintro ⟨p, ⟨hp, _⟩, hps⟩
    exact ⟨p, hp, hps⟩
  · rintro ⟨p, hp, hps⟩
    refine ⟨p, ⟨hp, ?_⟩, hps⟩
    have hps' : p.1 = s := by simpa using hps
    simpa [hps'] using Ne.symm h

theorem tableMem_erase_false (t : Table) (k s : String)
    (h : tableMem t s = false) : tableMem (tableErase t k) s = false := by
  by_cases hks : k = s
  · subst hks; exact tableMem_erase_self t k
  · rw [tableMem_erase_ne t k s hks]; exact h

theorem tableMem_insert_ne (t : Table) (k s : String) (v : SessionId)
    (h : k ≠ s) : tableMem (tableInsert t k v) s = tableMem t s := by
  simp only [tableMem, tableInsert, List.any_cons]
  have hk : (k == s) = false := by simpa using h
  simp only [hk, Bool.false_or]
  simpa [tableMem, tableErase] using tableMem_erase_ne t k s h

/- Projections of the state setters: each setter touches exactly one
field of the global state. -/

theorem setConnPhase_table (st : GState) (cid : Nat) (p : ConnectPhase) :
    (setConnPhase st cid p).table = st.table := rfl

theorem setConnPhase_handshakes (st : GState) (cid : Nat) (p : ConnectPhase) :
    (setConnPhase st cid p).handshakes = st.handshakes := rfl

theorem setFuture_table (st : GState) (hid : Nat) (f : FutureState) :
    (setFuture st hid f).table = st.table := rfl

theorem setFuture_handshakes (st : GState) (hid : Nat) (f : FutureState) :
    (setFuture st hid f).handshakes = st.handshakes := rfl

theorem setHsPhase_table (st : GState) (hid : Nat) (p : HsPhase) :
    (setHsPhase st hid p).table = st.table := rfl

theorem getConn_setFuture (st : GState) (hid : Nat) (f : FutureState) (cid : Nat) :
    getConn (setFuture st hid f) cid = getConn st cid := rfl

theorem getHs_setConnPhase (st : GState) (cid : Nat) (p : ConnectPhase) (hid : Nat) :
    getHs (setConnPhase st cid p) hid = getHs st hid := rfl

theorem getHs_setFuture (st : GState) (hid0 : Nat) (f : FutureState) (hid : Nat) :
    getHs (setFuture st hid0 f) hid = getHs st hid := rfl

theorem getConn_setConnPhase (st : GState) (cid : Nat) (p : ConnectPhase)
    (c : ConnTask) (h : getConn st cid = some c) :
    getConn (setConnPhase st cid p) cid = some { c with phase := p } := by
  simp only [getConn, setConnPhase] at h ⊢
  revert h
  induction st.conns with
  | nil => intro h; simp at h
  | cons a l ih =>
    intro h
    by_cases ha : (a.cid == cid) = true
    · rw [List.find?_cons_of_pos l ha] at h
      injection h with h
      subst h
      rw [List.map_cons, if_pos ha]
      exact @List.find?_cons_of_pos ConnTask (fun c => c.cid == cid)
        { a with phase := p }
        (List.map (fun c => if (c.cid == cid) = true then { c with phase := p } else c) l) ha
    · simp only [Bool.not_eq_true] at ha
      rw [List.find?_cons_of_neg l (by simp [ha])] at h
      rw [List.map_cons, if_neg (by simp [ha])]
      exact (@List.find?_cons_of_neg ConnTask (fun c => c.cid == cid) a
        (List.map (fun c => if (c.cid == cid) = true then { c with phase := p } else c) l)
        (by simp [ha])).trans (ih h)

theorem mem_of_getHs (st : GState) (hid : Nat) (h : HsTask)
    (hh : getHs st hid = some h) : h ∈ st.handshakes :=
  List.mem_of_find?_eq_some hh

theorem setHsPhase_sids (st : GState) (hid : Nat) (p : HsPhase) (h' : HsTask)
    (hmem : h' ∈ (setHsPhase st hid p).handshakes) :
    ∃ h0 ∈ st.handshakes, h'.sid = h0.sid := by
  simp only [setHsPhase, List.mem_map] at hmem
  obtain ⟨h0, hh0, rfl⟩ := hmem
  refine ⟨h0, hh0, ?_⟩
  by_cases hc : (h0.hid == hid) = true
  · rw [if_pos hc]
  · rw [if_neg hc]

/- Per-step facts: which fields each scheduler step can touch. -/

theorem connectStart_table (st : GState) (sid : String) :
    (connectStart st sid).table = st.table := by
  unfold connectStart; split <;> rfl

theorem connectStart_handshakes (st : GState) (sid : String) :
    (connectStart st sid).handshakes = st.handshakes := by
  unfold connectStart; split <;> rfl

theorem connectFetchStep_table (st : GState) (cid : Nat) (resp : RegistryResponse) :
    (connectFetchStep st cid resp).table = st.table := by
  unfold connectFetchStep
  repeat' split
  all_goals rfl

theorem connectFetchStep_handshakes_of_fetchNone (st : GState) (cid : Nat)
    (resp : RegistryResponse) (hf : fetch_from_registry resp = none) :
    (connectFetchStep st cid resp).handshakes = st.handshakes := by
  rcases hc : getConn st cid with _ | c
  · simp only [connectFetchStep, hc]
  · rcases hph : c.phase with _ | ⟨hid, svc⟩ | r
    · simp only [connectFetchStep, hc, hph, hf]
      rfl
    · simp only [connectFetchStep, hc, hph]
    · simp only [connectFetchStep, hc, hph]

theorem connectFetchStep_handshakes_mem (st : GState) (cid : Nat)
    (resp : RegistryResponse) (h' : HsTask)
    (hmem : h' ∈ (connectFetchStep st cid resp).handshakes) :
    h' ∈ st.handshakes ∨ ∃ c, getConn st cid = some c ∧ h'.sid = c.sid := by
  rcases hc : getConn st cid with _ | c
  · simp only [connectFetchStep, hc] at hmem
    exact Or.inl hmem
  · rcases hph : c.phase with _ | ⟨hid, svc⟩ | r
    · rcases hfr : fetch_from_registry resp with _ | svc
      · simp only [connectFetchStep, hc, hph, hfr] at hmem
        exact Or.inl hmem
      · simp only [connectFetchStep, hc, hph, hfr] at hmem
        by_cases h1 : transportType svc = "http"
        · rw [if_pos h1] at hmem
          exact Or.inl hmem
        · rw [if_neg h1] at hmem
          by_cases h2 : transportType svc = "sse"
          · rw [if_pos h2] at hmem
            by_cases h3 : (pyFalsy svc.sse_event_url || pyFalsy svc.sse_message_url) = true
            · rw [if_pos h3] at hmem
              exact Or.inl hmem
            · rw [if_neg h3] at hmem
              simp only [setConnPhase_handshakes, List.mem_cons] at hmem
              rcases hmem with rfl | hmem
              · exact Or.inr ⟨c, rfl, rfl⟩
              · exact Or.inl hmem
          · rw [if_neg h2] at hmem
            exact Or.inl hmem
    · simp only [connectFetchStep, hc, hph] at hmem
      exact Or.inl hmem
    · simp only [connectFetchStep, hc, hph] at hmem
      exact Or.inl hmem

theorem connectFutureStep_table (st : GState) (cid : Nat) :
    (connectFutureStep st cid).table = st.table := by
  unfold connectFutureStep
  repeat' split
  all_goals rfl

theorem connectFutureStep_handshakes (st : GState) (cid : Nat) :
    (connectFutureStep st cid).handshakes = st.handshakes := by
  unfold connectFutureStep
  repeat' split
  all_goals rfl

theorem connectTimeoutStep_table (st : GState) (cid : Nat) :
    (connectTimeoutStep st cid).table = st.table := by
  unfold connectTimeoutStep
  repeat' split
  all_goals rfl

theorem connectTimeoutStep_handshakes (st : GState) (cid : Nat) :
    (connectTimeoutStep st cid).handshakes = st.handshakes := by
  unfold connectTimeoutStep
  repeat' split
  all_goals rfl

theorem handshakeOkStep_table_char (st : GState) (hid : Nat) (hsk : HsTask)
    (hh : getHs st hid = some hsk) (hph : hsk.phase = .awaitingInit) :
    (handshakeOkStep st hid).table = tableInsert st.table hsk.sid hid := by
  simp only [handshakeOkStep, hh, hph]
  split <;> rfl

theorem handshakeOkStep_inserts (st : GState) (hid : Nat) (hsk : HsTask)
    (hh : getHs st hid = some hsk) (hph : hsk.phase = .awaitingInit) :
    tableMem (handshakeOkStep st hid).table hsk.sid = true := by
  rw [handshakeOkStep_table_char st hid hsk hh hph]
  exact tableMem_insert_self _ _ _

theorem handshakeFailStep_removes (st : GState) (hid : Nat) (msg : String)
    (hsk : HsTask) (hh : getHs st hid = some hsk)
    (hph : hsk.phase = .awaitingInit) :
    tableMem (handshakeFailStep st hid msg).table hsk.sid = false := by
  simp only [handshakeFailStep, hh, hph]
  exact tableMem_erase_self _ _

theorem keepAliveExitStep_removes (st : GState) (hid : Nat) (hsk : HsTask)
    (hh : getHs st hid = some hsk) (hph : hsk.phase = .keepAlive) :
    tableMem (keepAliveExitStep st hid).table hsk.sid = false := by
  simp only [keepAliveExitStep, hh, hph]
  exact tableMem_erase_self _ _

/- Preservation of `noTrace` by every scheduler step, leading to the
reachability invariant: a service id the registry does not know never
acquires a table entry or a handshake task. -/

theorem noTrace_connectStart (st : GState) (sid0 sid : String)
    (h : noTrace st sid) : noTrace (connectStart st sid0) sid := by
  obtain ⟨h1, h2⟩ := h
  constructor
  · rw [connectStart_table]; exact h1
  · rw [connectStart_handshakes]; exact h2

theorem noTrace_connectFetchStep (st : GState) (cid : Nat)
    (resp : RegistryResponse) (sid : String) (h : noTrace st sid)
    (hspawn : ∀ c : ConnTask, getConn st cid = some c → c.sid ≠ sid) :
    noTrace (connectFetchStep st cid resp) sid := by
  obtain ⟨h1, h2⟩ := h
  constructor
  · rw [connectFetchStep_table]; exact h1
  · intro h' hmem
    rcases connectFetchStep_handshakes_mem st cid resp h' hmem with hin | ⟨c, hc, hsid⟩
    · exact h2 h' hin
    · rw [hsid]; exact hspawn c hc

theorem noTrace_connectFetchStep_fetchNone (st : GState) (cid : Nat)
    (resp : RegistryResponse) (sid : String)
    (hf : fetch_from_registry resp = none) (h : noTrace st sid) :
    noTrace (connectFetchStep st cid resp) sid := by
  obtain ⟨h1, h2⟩ := h
  constructor
  · rw [connectFetchStep_table]; exact h1
  · rw [connectFetchStep_handshakes_of_fetchNone st cid resp hf]; exact h2

theorem noTrace_connectFutureStep (st : GState) (cid : Nat) (sid : String)
    (h : noTrace st sid) : noTrace (connectFutureStep st cid) sid := by
  obtain ⟨h1, h2⟩ := h
  constructor
  · rw [connectFutureStep_table]; exact h1
  · rw [connectFutureStep_handshakes]; exact h2

theorem noTrace_connectTimeoutStep (st : GState) (cid : Nat) (sid : String)
    (h : noTrace st sid) : noTrace (connectTimeoutStep st cid) sid := by
  obtain ⟨h1, h2⟩ := h
  constructor
  · rw [connectTimeoutStep_table]; exact h1
  · rw [connectTimeoutStep_handshakes]; exact h2

theorem noTrace_handshakeOkStep (st : GState) (hid : Nat) (sid : String)
    (h : noTrace st sid) : noTrace (handshakeOkStep st hid) sid := by
  obtain ⟨h1, h2⟩ := h
  rcases hh : getHs st hid with _ | hsk
  · simp only [handshakeOkStep, hh]; exact ⟨h1, h2⟩
  · rcases hph : hsk.phase with _ | _ | _
    · have hne : hsk.sid ≠ sid := h2 hsk (mem_of_getHs st hid hsk hh)
      constructor
      · rw [handshakeOkStep_table_char st hid hsk hh hph,
          tableMem_insert_ne _ _ _ _ hne]
        exact h1
      · intro h' hmem
        simp only [handshakeOkStep, hh, hph] at hmem
        have hmem' : h' ∈ (setHsPhase st hid HsPhase.keepAlive).handshakes := by
          revert hmem
          split <;> exact fun hm => hm
        obtain ⟨h0, hh0, hsid⟩ := setHsPhase_sids st hid .keepAlive h' hmem'
        rw [hsid]; exact h2 h0 hh0
    · simp only [handshakeOkStep, hh, hph]; exact ⟨h1, h2⟩
    · simp only [handshakeOkStep, hh, hph]; exact ⟨h1, h2⟩

theorem noTrace_handshakeFailStep (st : GState) (hid : Nat) (msg : String)
    (sid : String) (h : noTrace st sid) :
    noTrace (handshakeFailStep st hid msg) sid := by
  obtain ⟨h1, h2⟩ := h
  rcases hh : getHs st hid with _ | hsk
  · simp only [handshakeFailStep, hh]; exact ⟨h1, h2⟩
  · rcases hph : hsk.phase with _ | _ | _
    · constructor
      · simp only [handshakeFailStep, hh, hph]
        exact tableMem_erase_false _ _ _ (by
          revert h1
          split <;> exact fun hm => hm)
      · intro h' hmem
        simp only [handshakeFailStep, hh, hph] at hmem
        have hmem' : h' ∈ (setHsPhase st hid HsPhase.finished).handshakes := by
          revert hmem
          split <;> exact fun hm => hm
        obtain ⟨h0, hh0, hsid⟩ := setHsPhase_sids st hid .finished h' hmem'
        rw [hsid]; exact h2 h0 hh0
    · simp only [handshakeFailStep, hh, hph]; exact ⟨h1, h2⟩
    · simp only [handshakeFailStep, hh, hph]; exact ⟨h1, h2⟩

theorem noTrace_keepAliveExitStep (st : GState) (hid : Nat) (sid : String)
    (h : noTrace st sid) : noTrace (keepAliveExitStep st hid) sid := by
  obtain ⟨h1, h2⟩ := h
  rcases hh : getHs st hid with _ | hsk
  · simp only [keepAliveExitStep, hh]; exact ⟨h1, h2⟩
  · rcases hph : hsk.phase with _ | _ | _
    · simp only [keepAliveExitStep, hh, hph]; exact ⟨h1, h2⟩
    · constructor
      · simp only [keepAliveExitStep, hh, hph]
        exact tableMem_erase_false _ _ _ h1
      · intro h' hmem
        simp only [keepAliveExitStep, hh, hph] at hmem
        obtain ⟨h0, hh0, hsid⟩ := setHsPhase_sids _ hid .finished h' hmem
        rw [hsid]; exact h2 h0 hh0
    · simp only [keepAliveExitStep, hh, hph]; exact ⟨h1, h2⟩

theorem reachable_noTrace (reg : String → Option Service) (sid : String)
    (hreg : reg sid = none) (st : GState) (hst : Reachable reg st) :
    noTrace st sid := by
  induction hst with
  | init =>
    constructor
    · rfl
    · intro h hmem
      simp [initState] at hmem
  | start st' sid' _ ih => exact noTrace_connectStart st' sid' sid ih
  | fetchOk st' cid c svc _ hc hcsvc ih =>
    refine noTrace_connectFetchStep st' cid (.ok svc) sid ih ?_
    intro c' hc' hne
    rw [hc] at hc'
    injection hc' with hc'
    subst hc'
    rw [hne] at hcsvc
    rw [hreg] at hcsvc
    exact Option.noConfusion hcsvc
  | fetchFail st' cid resp _ hf ih =>
    exact noTrace_connectFetchStep_fetchNone st' cid resp sid hf ih
  | futureResumed st' cid _ ih => exact noTrace_connectFutureStep st' cid sid ih
  | timeoutFired st' cid _ ih => exact noTrace_connectTimeoutStep st' cid sid ih
  | hsOk st' hid _ ih => exact noTrace_handshakeOkStep st' hid sid ih
  | hsFail st' hid msg _ ih => exact noTrace_handshakeFailStep st' hid msg sid ih
  | kaExit st' hid _ ih => exact noTrace_keepAliveExitStep st' hid sid ih

theorem proxy_tool_call_snd (table : Table) (b : CallToolBehavior)
    (sid tool : String) : (proxy_tool_call table b sid tool).2 = table := by
  unfold proxy_tool_call
  split
  · rfl
  · split <;> rfl

theorem connectTimeoutStep_char (st : GState) (cid hid : Nat) (c : ConnTask)
    (svc : Service) (hc : getConn st cid = some c)
    (hph : c.phase = .awaitingFuture hid svc)
    (hf : getFuture st hid = some .pending) :
    connectTimeoutStep st cid
      = setConnPhase (setFuture st hid .cancelled) cid
          (.done (connectionInProgressMsg svc)) := by
  simp only [connectTimeoutStep, hc, hph, hf]

/-- Claim C1, counterexample: starting from the empty state, a second
`connect_to_service("svc1")` call that begins while the first is still
suspended awaiting its registry fetch passes the duplicate check too
(the table is marked only after handshake success, not before the first
suspension point), so the interleaving starts TWO handshake attempts for
the one service id, not exactly one. -/
theorem c1_counterexample :
    tableMem initState.table "svc1" = false ∧
    connResult raceState2 0 = none ∧
    connResult raceState2 1 = none ∧
    (raceState4.handshakes.filter (fun h => h.sid == "svc1")).length = 2 := by
  exact ⟨rfl, rfl, rfl, rfl⟩

/-- Claim C1 as amended: in that concurrent interleaving both connect
calls pass the duplicate check and two handshake attempts are started
for the one service id; because a dict write is a keyed overwrite, the
Active Connection Table still ends with exactly one entry for the id
once both handshakes complete. -/
theorem c1_amended_duplicate_handshakes :
    tableMem initState.table "svc1" = false ∧
    connResult raceState2 0 = none ∧
    connResult raceState2 1 = none ∧
    (raceState4.handshakes.filter (fun h => h.sid == "svc1")).length = 2 ∧
    keyCount raceState6.table "svc1" = 1 ∧
    tableMem raceState6.table "svc1" = true := by
  exact ⟨rfl, rfl, rfl, rfl, rfl, rfl⟩

/-- Claim C2: for every input to the three caller-facing operations and
every behaviour of the remote collaborators — including behaviours that
raise exceptions (`HandshakeWaitOutcome.failed`, `CallToolBehavior.raises`,
`ListToolsBehavior.raises`) — the operation returns one of its
enumerated descriptive outcome strings; no exception escapes the
dispatcher boundary. -/
theorem c2_no_raw_fault (table : Table) (resp : RegistryResponse)
    (wait : HandshakeWaitOutcome) (behavior : CallToolBehavior)
    (lb : ListToolsBehavior) (sid tool : String) :
    ConnectOutcome sid (connect_to_service table resp wait sid) ∧
    ProxyOutcome sid tool (proxy_tool_call table behavior sid tool).1 ∧
    ListOutcome sid (list_service_tools table lb sid) := by
  refine ⟨?_, ?_, ?_⟩
  · unfold connect_to_service
    split
    · exact ConnectOutcome.already
    · split
      · exact ConnectOutcome.notFound
      · split
        · exact ConnectOutcome.http _
        · split
          · split
            · exact ConnectOutcome.missingUrls
            · split
              · exact ConnectOutcome.sseOk _
              · exact ConnectOutcome.caught _
              · exact ConnectOutcome.inProgress _
          · exact ConnectOutcome.unsupported _
  · unfold proxy_tool_call
    split
    · exact ProxyOutcome.notConnected
    · split
      · exact ProxyOutcome.result _
      · exact ProxyOutcome.result _
      · exact ProxyOutcome.timeout
      · exact ProxyOutcome.caught _
  · unfold list_service_tools
    split
    · exact ListOutcome.notConnected
    · split
      · exact ListOutcome.caught _
      · split
        · exact ListOutcome.noTools
        · exact ListOutcome.tools _

/-- Claim C3, counterexample: a transport error raised by
`session.call_tool` during a tool invocation is rendered as an error
string by `proxy_tool_call`, but the Active Connection Table still
contains the entry for that service id afterwards — `proxy_tool_call`
never deletes it. -/
theorem c3_counterexample :
    proxy_tool_call [("svc1", 7)] (.raises "Connection lost") "svc1" "echo"
      = ("Error calling tool: Connection lost", [("svc1", 7)]) ∧
    tableMem
      (proxy_tool_call [("svc1", 7)] (.raises "Connection lost") "svc1" "echo").2
      "svc1" = true := by
  exact ⟨rfl, rfl⟩

/-- Claim C3 as amended: after a handshake failure the table no longer
contains the entry for that service id, and when the keep-alive loop of
an established Session exits its finalizer removes the entry; but a
transport error raised during a tool invocation leaves the table
unchanged — only the background task's own exit paths clean up. -/
theorem c3_amended_cleanup (st1 st2 : GState) (hid1 hid2 : Nat)
    (h1 h2 : HsTask) (msg : String)
    (hh1 : getHs st1 hid1 = some h1) (hp1 : h1.phase = .awaitingInit)
    (hh2 : getHs st2 hid2 = some h2) (hp2 : h2.phase = .keepAlive) :
    tableMem (handshakeFailStep st1 hid1 msg).table h1.sid = false ∧
    tableMem (keepAliveExitStep st2 hid2).table h2.sid = false ∧
    ∀ (table : Table) (b : CallToolBehavior) (sid tool : String),
      (proxy_tool_call table b sid tool).2 = table :=
  ⟨handshakeFailStep_removes st1 hid1 msg h1 hh1 hp1,
   keepAliveExitStep_removes st2 hid2 h2 hh2 hp2,
   proxy_tool_call_snd⟩

/-- Witness for the amended C3 at concrete states. -/
theorem c3_amended_cleanup_witness :
    tableMem (handshakeFailStep hsInitState 1 "boom").table "svc2" = false ∧
    tableMem (keepAliveExitStep hsKeepState 1).table "svc2" = false ∧
    ∀ (table : Table) (b : CallToolBehavior) (sid tool : String),
      (proxy_tool_call table b sid tool).2 = table :=
  c3_amended_cleanup hsInitState hsKeepState 1 1
    { hid := 1, sid := "svc2", phase := .awaitingInit }
    { hid := 1, sid := "svc2", phase := .keepAlive } "boom"
    (by decide) rfl (by decide) rfl

/-- Claim C4: for every Ready Session whose tool invocation returns the
content items text "A", an image, and a resource with uri "r://1" in
that order, `proxy_tool_call` returns exactly the banner followed by the
items rendered in order and joined by newlines, and leaves the table
unchanged; items of any other kind render via the generic `str(item)`
fallback. -/
theorem c4_content_normalization (table : Table) (sid tool : String)
    (h : tableMem table sid = true) :
    proxy_tool_call table
        (.returnsList [.text "A", .image, .resource (some "r://1")]) sid tool
      = ("Tool execution result:\nA\n[Image content]\n[Resource: r://1]", table) ∧
    (∀ r, renderItem (.otherTyped r) = r) ∧
    (∀ r, renderItem (.untyped r) = r) := by
  have hcond : (!(tableMem table sid)) = false := by rw [h]; rfl
  refine ⟨?_, fun r => rfl, fun r => rfl⟩
  unfold proxy_tool_call
  rw [hcond]
  rfl

/-- Witness for C4 at a concrete table. -/
theorem c4_content_normalization_witness :
    proxy_tool_call [("svc1", 0)]
        (.returnsList [.text "A", .image, .resource (some "r://1")]) "svc1" "echo"
      = ("Tool execution result:\nA\n[Image content]\n[Resource: r://1]",
         [("svc1", 0)]) :=
  (c4_content_normalization [("svc1", 0)] "svc1" "echo" (by decide)).1

/-- Claim C5: when the 15 second wait on the connection future times
out, the caller receives the connection-in-progress reply, the
handshake task is not canceled (it is still registered, unchanged, in
the scheduler state), and if its initialize exchange later succeeds the
Session is still inserted into the Active Connection Table. -/
theorem c5_timeout_nonfatal (st : GState) (cid hid : Nat) (c : ConnTask)
    (svc : Service) (hsk : HsTask)
    (hc : getConn st cid = some c) (hph : c.phase = .awaitingFuture hid svc)
    (hf : getFuture st hid = some .pending)
    (hh : getHs st hid = some hsk) (hhp : hsk.phase = .awaitingInit) :
    connResult (connectTimeoutStep st cid) cid
      = some (connectionInProgressMsg svc) ∧
    getHs (connectTimeoutStep st cid) hid = some hsk ∧
    tableMem (handshakeOkStep (connectTimeoutStep st cid) hid).table hsk.sid
      = true := by
  have hstep := connectTimeoutStep_char st cid hid c svc hc hph hf
  have hh' : getHs (connectTimeoutStep st cid) hid = some hsk := by
    rw [hstep]; exact hh
  refine ⟨?_, hh', handshakeOkStep_inserts _ hid hsk hh' hhp⟩
  rw [hstep]
  unfold connResult
  rw [getConn_setConnPhase (setFuture st hid .cancelled) cid _ c hc]

/-- Witness for C5 at a concrete state. -/
theorem c5_timeout_nonfatal_witness :
    connResult (connectTimeoutStep hsInitState 0) 0
      = some (connectionInProgressMsg svcSse) ∧
    getHs (connectTimeoutStep hsInitState 0) 1
      = some { hid := 1, sid := "svc2", phase := HsPhase.awaitingInit } ∧
    tableMem (handshakeOkStep (connectTimeoutStep hsInitState 0) 1).table "svc2"
      = true :=
  c5_timeout_nonfatal hsInitState 0 1
    { cid := 0, sid := "svc2", phase := .awaitingFuture 1 svcSse } svcSse
    { hid := 1, sid := "svc2", phase := .awaitingInit }
    (by decide) rfl (by decide) (by decide) rfl

/-- Claim C6: a tool invocation that hits the 30 second timeout returns
the fixed message naming the tool and the duration, the table entry for
the service id is left unchanged, and a subsequent invocation on the
same service id is still dispatched to the Session. -/
theorem c6_call_timeout (table : Table) (sid tool tool2 : String)
    (content : List ContentItem) (h : tableMem table sid = true) :
    proxy_tool_call table .timesOut sid tool = (toolTimeoutMsg tool, table) ∧
    proxy_tool_call (proxy_tool_call table .timesOut sid tool).2
        (.returnsList content) sid tool2
      = (toolResultMsg (String.intercalate "\n" (content.map renderItem)),
         table) := by
  have hcond : (!(tableMem table sid)) = false := by rw [h]; rfl
  have h1 : proxy_tool_call table .timesOut sid tool = (toolTimeoutMsg tool, table) := by
    unfold proxy_tool_call
    rw [hcond]
    rfl
  refine ⟨h1, ?_⟩
  rw [h1]
  unfold proxy_tool_call
  rw [hcond]
  rfl

/-- Witness for C6 at a concrete table. -/
theorem c6_call_timeout_witness :
    proxy_tool_call [("svc1", 0)] .timesOut "svc1" "echo"
      = (toolTimeoutMsg "echo", [("svc1", 0)]) ∧
    proxy_tool_call (proxy_tool_call [("svc1", 0)] .timesOut "svc1" "echo").2
        (.returnsList [.text "pong"]) "svc1" "echo"
      = (toolResultMsg "pong", [("svc1", 0)]) :=
  c6_call_timeout [("svc1", 0)] "svc1" "echo" "echo" [.text "pong"] (by decide)

/-- Claim C7: for a service id absent from the registry catalog, every
reachable state has no table entry for it, and the three caller-facing
operations return their fixed descriptive outcome strings (the
not-found reply for connect, the not-connected reply for the other
two), never a raw fault. -/
theorem c7_unknown_service (reg : String → Option Service) (st : GState)
    (sid tool : String) (resp : RegistryResponse) (wait : HandshakeWaitOutcome)
    (b : CallToolBehavior) (lb : ListToolsBehavior)
    (hreg : reg sid = none) (hst : Reachable reg st)
    (hresp : fetch_from_registry resp = none) :
    tableMem st.table sid = false ∧
    connect_to_service st.table resp wait sid = serviceNotFoundMsg sid ∧
    (proxy_tool_call st.table b sid tool).1 = notConnectedMsg sid ∧
    list_service_tools st.table lb sid = notConnectedMsg sid := by
  obtain ⟨h1, -⟩ := reachable_noTrace reg sid hreg st hst
  have hcond : (!(tableMem st.table sid)) = true := by rw [h1]; rfl
  refine ⟨h1, ?_, ?_, ?_⟩
  · unfold connect_to_service
    rw [h1, hresp]
    rfl
  · unfold proxy_tool_call
    rw [hcond]
    rfl
  · unfold list_service_tools
    rw [hcond]
    rfl

/-- Witness for C7 at the initial state and an empty catalog. -/
theorem c7_unknown_service_witness :
    tableMem initState.table "ghost" = false ∧
    connect_to_service initState.table .notFoundStatus .completed "ghost"
      = serviceNotFoundMsg "ghost" ∧
    (proxy_tool_call initState.table .timesOut "ghost" "echo").1
      = notConnectedMsg "ghost" ∧
    list_service_tools initState.table (.returns []) "ghost"
      = notConnectedMsg "ghost" :=
  c7_unknown_service (fun _ => none) initState "ghost" "echo" .notFoundStatus
    .completed .timesOut (.returns []) rfl Reachable.init rfl

/-- Claim C8: connecting to an event-stream descriptor with a missing
or empty endpoint URL returns the configuration-error message, starts
no handshake task, and creates no table entry. -/
theorem c8_missing_sse_urls (table : Table) (st : GState) (cid : Nat)
    (c : ConnTask) (svc : Service) (wait : HandshakeWaitOutcome) (sid : String)
    (htt : transportType svc = "sse")
    (hurl : (pyFalsy svc.sse_event_url || pyFalsy svc.sse_message_url) = true)
    (hmem : tableMem table sid = false)
    (hc : getConn st cid = some c) (hcp : c.phase = .awaitingFetch) :
    connect_to_service table (.ok svc) wait sid = missingSseUrlsMsg ∧
    (connectFetchStep st cid (.ok svc)).handshakes = st.handshakes ∧
    (connectFetchStep st cid (.ok svc)).table = st.table ∧
    connResult (connectFetchStep st cid (.ok svc)) cid
      = some missingSseUrlsMsg := by
  have hne : transportType svc ≠ "http" := by rw [htt]; decide
  have hchar : connectFetchStep st cid (.ok svc)
      = setConnPhase st cid (.done missingSseUrlsMsg) := by
    simp only [connectFetchStep, hc, hcp, fetch_from_registry]
    rw [if_neg hne, if_pos htt, if_pos hurl]
  refine ⟨?_, ?_, ?_, ?_⟩
  · unfold connect_to_service
    rw [hmem]
    simp only [fetch_from_registry]
    rw [htt, hurl]
    rfl
  · rw [hchar]; rfl
  · rw [hchar]; rfl
  · rw [hchar]
    unfold connResult
    rw [getConn_setConnPhase st cid _ c hc]

/-- Witness for C8 at a concrete descriptor with an empty message URL. -/
theorem c8_missing_sse_urls_witness :
    connect_to_service [] (.ok svcSseNoMsgUrl) .completed "svc3"
      = missingSseUrlsMsg ∧
    (connectFetchStep (connectStart initState "svc3") 0 (.ok svcSseNoMsgUrl)).handshakes
      = (connectStart initState "svc3").handshakes ∧
    (connectFetchStep (connectStart initState "svc3") 0 (.ok svcSseNoMsgUrl)).table
      = (connectStart initState "svc3").table ∧
    connResult (connectFetchStep (connectStart initState "svc3") 0 (.ok svcSseNoMsgUrl)) 0
      = some missingSseUrlsMsg :=
  c8_missing_sse_urls [] (connectStart initState "svc3") 0
    { cid := 0, sid := "svc3", phase := .awaitingFetch } svcSseNoMsgUrl
    .completed "svc3" rfl rfl rfl (by decide) rfl

/-- Claim C9, counterexample: the gateway server exposes no operation
named disconnect — its caller-facing surface consists only of the seven
functions registered with the tool decorator. -/
theorem c9_counterexample : "disconnect" ∉ exposedToolNames := by
  decide

/-- Claim C9 as amended: the core exposes no disconnect operation, and
no caller-facing operation removes an Active Connection Table entry —
entries are removed only inside the spawned
`establish_sse_connection` task (its failure handler and keep-alive
finalizer). -/
theorem c9_amended_no_disconnect :
    "disconnect" ∉ exposedToolNames ∧
    exposedToolNames.length = 7 ∧
    (∀ (table : Table) (b : CallToolBehavior) (sid tool : String),
      (proxy_tool_call table b sid tool).2 = table) ∧
    (∀ (st : GState) (sid : String), (connectStart st sid).table = st.table) ∧
    (∀ (st : GState) (cid : Nat) (resp : RegistryResponse),
      (connectFetchStep st cid resp).table = st.table) ∧
    (∀ (st : GState) (cid : Nat), (connectFutureStep st cid).table = st.table) ∧
    (∀ (st : GState) (cid : Nat), (connectTimeoutStep st cid).table = st.table) :=
  ⟨by decide, rfl, proxy_tool_call_snd, connectStart_table,
   connectFetchStep_table, connectFutureStep_table, connectTimeoutStep_table⟩

/-- Claim C10: every failure of the registry lookup — unreachable
registry, non-success HTTP status, malformed JSON body — yields the
same not-found reply from `connect_to_service` as a genuinely absent id
(a 404 from the registry), so the not-found outcome does not imply the
service is unregistered. -/
theorem c10_registry_failure_not_found (table : Table) (sid : String)
    (wait : HandshakeWaitOutcome) (code : Nat) (m1 m2 : String)
    (hmem : tableMem table sid = false) :
    connect_to_service table (.unreachable m1) wait sid
      = serviceNotFoundMsg sid ∧
    connect_to_service table (.serverError code) wait sid
      = serviceNotFoundMsg sid ∧
    connect_to_service table (.badJson m2) wait sid
      = serviceNotFoundMsg sid ∧
    connect_to_service table .notFoundStatus wait sid
      = serviceNotFoundMsg sid := by
  refine ⟨?_, ?_, ?_, ?_⟩ <;> (unfold connect_to_service; rw [hmem]; rfl)

/-- Witness for C10 at a concrete empty table. -/
theorem c10_registry_failure_not_found_witness :
    connect_to_service [] (.unreachable "connection refused") .completed "svc9"
      = serviceNotFoundMsg "svc9" ∧
    connect_to_service [] (.serverError 500) .completed "svc9"
      = serviceNotFoundMsg "svc9" ∧
    connect_to_service [] (.badJson "invalid json") .completed "svc9"
      = serviceNotFoundMsg "svc9" ∧
    connect_to_service [] .notFoundStatus .completed "svc9"
      = serviceNotFoundMsg "svc9" :=
  c10_registry_failure_not_found [] "svc9" .completed 500
    "connection refused" "invalid json" rfl

end Gateway
